import Mathlib

/-!
Shallow embedding of the compressed-notes program
(src/programs/compressed-notes/src/lib.rs).

Byte strings are modelled as `List Nat` (one Nat per byte); a Rust `String`
is represented by its UTF-8 byte sequence, so Rust string equality coincides
with list equality.  `Pubkey` values are 32-byte strings.  The keccak hash
itself is an external primitive, so every operation is parametrised by the
underlying hash function `H : Bytes -> Hash32`; what the source fixes — and
what we embed — is the byte string that is fed to the hash
(`keccak::hashv` hashes the concatenation of its input slices).

The SPL account-compression engine and the noop log wrapper are external
collaborators reached through CPI.  They are modelled by an `Engine` record
of oracles; an operation returns an `Outcome`: the `Result`, the ordered
trace of external calls it made (verify / emit / replace / append), and the
resulting tree root.  The trace records a `verifyCall`, `replaceCall` or
`appendCall` whenever the corresponding CPI is issued (whether or not it
succeeds), and an `emitEvent` exactly when the noop log CPI succeeds, i.e.
when a record actually lands in the event log.
-/

namespace CompressedNotes

abbrev Bytes := List Nat

abbrev Pubkey := List Nat

abbrev Hash32 := List Nat

/-- `keccak::hashv(slices)` hashes the concatenation of the given byte
slices with the underlying keccak-256 function `H`. -/
def keccak_hashv (H : Bytes → Hash32) (chunks : List Bytes) : Hash32 :=
  H chunks.flatten

/-- The pre-hash byte string fed to the hash by `keccak::hashv`:
the concatenation of the input slices, with no separator. -/
def hashv_input (chunks : List Bytes) : Bytes :=
  chunks.flatten

/-- The leaf computation shared by `append_message` (line 81) and
`update_message` (lines 142 and 177):
`keccak::hashv(&[message.as_bytes(), sender.key().as_ref()])`. -/
def leaf_node (H : Bytes → Hash32) (message : Bytes) (sender : Pubkey) : Hash32 :=
  keccak_hashv H [message, sender]

/-- Modelled from the spec: the record constructor `new_message_log`
called by `append_message` and `update_message` is not defined in the
source file; per the spec operation
`encode_event(leaf, sender_id, recipient_id, content) -> Record` and the
NoteEvent attributes (leaf hash, owner/sender identity, recipient identity,
note text), it is a pure constructor carrying all four attributes. -/
structure MessageLog where
  leaf_node : Hash32
  owner : Pubkey
  recipient : Pubkey
  note : Bytes
deriving DecidableEq

/-- Modelled from the spec: pure constructor of the log record
(see `MessageLog`). -/
def new_message_log (leaf : Hash32) (owner recipient : Pubkey) (note : Bytes) :
    MessageLog :=
  { leaf_node := leaf, owner := owner, recipient := recipient, note := note }

/-- The `NoteLog` struct of the source (lines 229-238): leaf hash, owner,
and note text. -/
structure NoteLog where
  leaf_node : Hash32
  owner : Pubkey
  note : Bytes
deriving DecidableEq

/-- `create_note_log` (lines 251-253). -/
def create_note_log (leaf : Hash32) (owner : Pubkey) (note : Bytes) : NoteLog :=
  { leaf_node := leaf, owner := owner, note := note }

/-- Errors surfaced by the operations: each tags the external call whose
failure was propagated by the `?` operator at the corresponding line. -/
inductive ProgramError where
  | leafVerificationFailed
  | replaceFailed
  | appendFailed
  | logFailed
deriving DecidableEq

/-- One external call observed in an operation trace. -/
inductive Action where
  | verifyCall (root leaf : Hash32) (index : Nat)
  | emitEvent (log : MessageLog)
  | replaceCall (root old_leaf new_leaf : Hash32) (index : Nat)
  | appendCall (leaf : Hash32)
deriving DecidableEq

/-- The external engine (SPL account compression + noop log wrapper),
treated as a black box of oracles.  `verify_leaf` answers whether the
claimed (root, leaf, index) triple verifies against the current tree;
`replace_leaf` and `append` return the new root on success and `none` on
failure; `wrap_application_data_v1` tells whether the noop log CPI
succeeds. -/
structure Engine where
  verify_leaf : Hash32 → Hash32 → Hash32 → Nat → Bool
  replace_leaf : Hash32 → Hash32 → Hash32 → Hash32 → Nat → Option Hash32
  append : Hash32 → Hash32 → Option Hash32
  wrap_application_data_v1 : MessageLog → Bool

/-- Result, ordered trace of external calls, and final tree root of one
operation. -/
structure Outcome where
  result : Except ProgramError Unit
  trace : List Action
  root : Hash32

/-- The log records that actually landed in the event log during a trace. -/
def emitted_logs (tr : List Action) : List MessageLog :=
  tr.filterMap fun a =>
    match a with
    | Action.emitEvent l => some l
    | _ => none

/-- The replace calls issued during a trace. -/
def replace_calls (tr : List Action) : List Action :=
  tr.filter fun a =>
    match a with
    | Action.replaceCall _ _ _ _ => true
    | _ => false

/-- The verify calls issued during a trace. -/
def verify_calls (tr : List Action) : List Action :=
  tr.filter fun a =>
    match a with
    | Action.verifyCall _ _ _ => true
    | _ => false

/-- `append_message` (lines 77-120): hash the message with the sender key
into a leaf (line 81), build the log record (lines 84-89), emit it through
the noop program (line 92), then CPI `append` the leaf to the tree
(line 117), propagating any failure. -/
def append_message (H : Bytes → Hash32) (eng : Engine) (state_root : Hash32)
    (sender recipient : Pubkey) (message : Bytes) : Outcome :=
  let leaf := leaf_node H message sender
  let message_log := new_message_log leaf sender recipient message
  if eng.wrap_application_data_v1 message_log then
    match eng.append state_root leaf with
    | some r =>
      { result := Except.ok ()
        trace := [Action.emitEvent message_log, Action.appendCall leaf]
        root := r }
    | none =>
      { result := Except.error ProgramError.appendFailed
        trace := [Action.emitEvent message_log, Action.appendCall leaf]
        root := state_root }
  else
    { result := Except.error ProgramError.logFailed
      trace := []
      root := state_root }

/-- `update_message` (lines 133-206): hash the old message into the old
leaf (line 142); if old and new messages are equal, return Ok without any
external call (lines 158-161); otherwise CPI `verify_leaf` on
(root, old_leaf, index) (line 173), hash the new message into the new leaf
(line 177), build and emit the log record for the new message (lines
180-186), and finally CPI `replace_leaf` (line 202), each `?` propagating
failure. -/
def update_message (H : Bytes → Hash32) (eng : Engine) (state_root : Hash32)
    (sender recipient : Pubkey) (index : Nat) (root : Hash32)
    (old_message new_message : Bytes) : Outcome :=
  let old_leaf := leaf_node H old_message sender
  if old_message = new_message then
    { result := Except.ok (), trace := [], root := state_root }
  else if eng.verify_leaf state_root root old_leaf index then
    let new_leaf := leaf_node H new_message sender
    let message_log := new_message_log new_leaf sender recipient new_message
    if eng.wrap_application_data_v1 message_log then
      match eng.replace_leaf state_root root old_leaf new_leaf index with
      | some r =>
        { result := Except.ok ()
          trace := [Action.verifyCall root old_leaf index,
                    Action.emitEvent message_log,
                    Action.replaceCall root old_leaf new_leaf index]
          root := r }
      | none =>
        { result := Except.error ProgramError.replaceFailed
          trace := [Action.verifyCall root old_leaf index,
                    Action.emitEvent message_log,
                    Action.replaceCall root old_leaf new_leaf index]
          root := state_root }
    else
      { result := Except.error ProgramError.logFailed
        trace := [Action.verifyCall root old_leaf index]
        root := state_root }
  else
    { result := Except.error ProgramError.leafVerificationFailed
      trace := [Action.verifyCall root old_leaf index]
      root := state_root }

/-- PDA signer seeds used by `create_messages_tree` (lines 45-50):
one signer whose seed slices are the Merkle tree address and the bump. -/
def signers_seeds_create (merkle_tree : Pubkey) (bump : Nat) :
    List (List Bytes) :=
  [[merkle_tree, [bump]]]

/-- PDA signer seeds used by `append_message` (lines 98-103). -/
def signers_seeds_append (merkle_tree : Pubkey) (bump : Nat) :
    List (List Bytes) :=
  [[merkle_tree, [bump]]]

/-- PDA signer seeds used by `update_message` (lines 148-153). -/
def signers_seeds_update (merkle_tree : Pubkey) (bump : Nat) :
    List (List Bytes) :=
  [[merkle_tree, [bump]]]

/-- The seed declaration of the `tree_authority` PDA in `NoteAccounts`
(lines 264-268): `seeds = [merkle_tree.key().as_ref()]`, the bump being
discovered by the platform. -/
def tree_authority_seeds (merkle_tree : Pubkey) : List Bytes :=
  [merkle_tree]

/-- A concrete stand-in hash for evaluating the operations on closed inputs
(the development is parametric in the hash; this one is the identity on the
pre-hash byte string). -/
def idHash : Bytes → Hash32 := fun b => b

/-- A concrete stand-in hash with 32-byte output. -/
def zeroHash32 : Bytes → Hash32 := fun _ => List.replicate 32 0

/-- A concrete engine on which every external call succeeds. -/
def okEngine : Engine :=
  { verify_leaf := fun _ _ _ _ => true
    replace_leaf := fun _ _ _ new_leaf _ => some new_leaf
    append := fun _ leaf => some leaf
    wrap_application_data_v1 := fun _ => true }

/-- A concrete engine on which the verify call fails. -/
def verifyFailEngine : Engine :=
  { verify_leaf := fun _ _ _ _ => false
    replace_leaf := fun _ _ _ new_leaf _ => some new_leaf
    append := fun _ leaf => some leaf
    wrap_application_data_v1 := fun _ => true }

/-- A concrete engine on which the replace call fails. -/
def replaceFailEngine : Engine :=
  { verify_leaf := fun _ _ _ _ => true
    replace_leaf := fun _ _ _ _ _ => none
    append := fun _ leaf => some leaf
    wrap_application_data_v1 := fun _ => true }

/-- A concrete engine on which the append call fails. -/
def appendFailEngine : Engine :=
  { verify_leaf := fun _ _ _ _ => true
    replace_leaf := fun _ _ _ new_leaf _ => some new_leaf
    append := fun _ _ => none
    wrap_application_data_v1 := fun _ => true }

theorem update_message_noop (H : Bytes → Hash32) (eng : Engine)
    (state_root : Hash32) (sender recipient : Pubkey) (index : Nat)
    (root : Hash32) (old_message new_message : Bytes)
    (h : old_message = new_message) :
    update_message H eng state_root sender recipient index root
        old_message new_message =
      { result := Except.ok (), trace := [], root := state_root } := by
  simp [update_message, h]

theorem update_message_verify_false (H : Bytes → Hash32) (eng : Engine)
    (state_root : Hash32) (sender recipient : Pubkey) (index : Nat)
    (root : Hash32) (old_message new_message : Bytes)
    (hne : old_message ≠ new_message)
    (hv : eng.verify_leaf state_root root (leaf_node H old_message sender)
        index = false) :
    update_message H eng state_root sender recipient index root
        old_message new_message =
      { result := Except.error ProgramError.leafVerificationFailed
        trace := [Action.verifyCall root (leaf_node H old_message sender) index]
        root := state_root } := by
  simp [update_message, hne, hv]

theorem update_message_wrap_false (H : Bytes → Hash32) (eng : Engine)
    (state_root : Hash32) (sender recipient : Pubkey) (index : Nat)
    (root : Hash32) (old_message new_message : Bytes)
    (hne : old_message ≠ new_message)
    (hv : eng.verify_leaf state_root root (leaf_node H old_message sender)
        index = true)
    (hw : eng.wrap_application_data_v1
        (new_message_log (leaf_node H new_message sender) sender recipient
          new_message) = false) :
    update_message H eng state_root sender recipient index root
        old_message new_message =
      { result := Except.error ProgramError.logFailed
        trace := [Action.verifyCall root (leaf_node H old_message sender) index]
        root := state_root } := by
  simp [update_message, hne, hv, hw]

theorem update_message_replace_none (H : Bytes → Hash32) (eng : Engine)
    (state_root : Hash32) (sender recipient : Pubkey) (index : Nat)
    (root : Hash32) (old_message new_message : Bytes)
    (hne : old_message ≠ new_message)
    (hv : eng.verify_leaf state_root root (leaf_node H old_message sender)
        index = true)
    (hw : eng.wrap_application_data_v1
        (new_message_log (leaf_node H new_message sender) sender recipient
          new_message) = true)
    (hr : eng.replace_leaf state_root root (leaf_node H old_message sender)
        (leaf_node H new_message sender) index = none) :
    update_message H eng state_root sender recipient index root
        old_message new_message =
      { result := Except.error ProgramError.replaceFailed
        trace := [Action.verifyCall root (leaf_node H old_message sender) index,
                  Action.emitEvent (new_message_log
                    (leaf_node H new_message sender) sender recipient
                    new_message),
                  Action.replaceCall root (leaf_node H old_message sender)
                    (leaf_node H new_message sender) index]
        root := state_root } := by
  simp [update_message, hne, hv, hw, hr]

theorem update_message_replace_some (H : Bytes → Hash32) (eng : Engine)
    (state_root : Hash32) (sender recipient : Pubkey) (index : Nat)
    (root r : Hash32) (old_message new_message : Bytes)
    (hne : old_message ≠ new_message)
    (hv : eng.verify_leaf state_root root (leaf_node H old_message sender)
        index = true)
    (hw : eng.wrap_application_data_v1
        (new_message_log (leaf_node H new_message sender) sender recipient
          new_message) = true)
    (hr : eng.replace_leaf state_root root (leaf_node H old_message sender)
        (leaf_node H new_message sender) index = some r) :
    update_message H eng state_root sender recipient index root
        old_message new_message =
      { result := Except.ok ()
        trace := [Action.verifyCall root (leaf_node H old_message sender) index,
                  Action.emitEvent (new_message_log
                    (leaf_node H new_message sender) sender recipient
                    new_message),
                  Action.replaceCall root (leaf_node H old_message sender)
                    (leaf_node H new_message sender) index]
        root := r } := by
  simp [update_message, hne, hv, hw, hr]

theorem append_message_wrap_false (H : Bytes → Hash32) (eng : Engine)
    (state_root : Hash32) (sender recipient : Pubkey) (message : Bytes)
    (hw : eng.wrap_application_data_v1
        (new_message_log (leaf_node H message sender) sender recipient
          message) = false) :
    append_message H eng state_root sender recipient message =
      { result := Except.error ProgramError.logFailed
        trace := []
        root := state_root } := by
  simp [append_message, hw]

theorem append_message_append_none (H : Bytes → Hash32) (eng : Engine)
    (state_root : Hash32) (sender recipient : Pubkey) (message : Bytes)
    (hw : eng.wrap_application_data_v1
        (new_message_log (leaf_node H message sender) sender recipient
          message) = true)
    (ha : eng.append state_root (leaf_node H message sender) = none) :
    append_message H eng state_root sender recipient message =
      { result := Except.error ProgramError.appendFailed
        trace := [Action.emitEvent (new_message_log
                    (leaf_node H message sender) sender recipient message),
                  Action.appendCall (leaf_node H message sender)]
        root := state_root } := by
  simp [append_message, hw, ha]

theorem append_message_append_some (H : Bytes → Hash32) (eng : Engine)
    (state_root : Hash32) (sender recipient : Pubkey) (message : Bytes)
    (r : Hash32)
    (hw : eng.wrap_application_data_v1
        (new_message_log (leaf_node H message sender) sender recipient
          message) = true)
    (ha : eng.append state_root (leaf_node H message sender) = some r) :
    append_message H eng state_root sender recipient message =
      { result := Except.ok ()
        trace := [Action.emitEvent (new_message_log
                    (leaf_node H message sender) sender recipient message),
                  Action.appendCall (leaf_node H message sender)]
        root := r } := by
  simp [append_message, hw, ha]

/-- C1: in `update_message`, for every input where the old content differs
from the new content, whenever a log event is emitted the verify call has
succeeded, and the trace is exactly verify call, then event emission, then
replace call: verify strictly precedes emission, which strictly precedes
replace. -/
theorem update_verify_before_emit_before_replace
    (H : Bytes → Hash32) (eng : Engine) (state_root : Hash32)
    (sender recipient : Pubkey) (index : Nat) (root : Hash32)
    (old_message new_message : Bytes) (l : MessageLog)
    (hne : old_message ≠ new_message)
    (hl : Action.emitEvent l ∈
      (update_message H eng state_root sender recipient index root
        old_message new_message).trace) :
    eng.verify_leaf state_root root (leaf_node H old_message sender) index
        = true
    ∧ (update_message H eng state_root sender recipient index root
        old_message new_message).trace =
      [Action.verifyCall root (leaf_node H old_message sender) index,
       Action.emitEvent l,
       Action.replaceCall root (leaf_node H old_message sender)
         (leaf_node H new_message sender) index] := by
  cases hv : eng.verify_leaf state_root root (leaf_node H old_message sender)
      index with
  | false =>
    rw [update_message_verify_false H eng state_root sender recipient index
      root old_message new_message hne hv] at hl
    simp at hl
  | true =>
    cases hw : eng.wrap_application_data_v1
        (new_message_log (leaf_node H new_message sender) sender recipient
          new_message) with
    | false =>
      rw [update_message_wrap_false H eng state_root sender recipient index
        root old_message new_message hne hv hw] at hl
      simp at hl
    | true =>
      cases hr : eng.replace_leaf state_root root
          (leaf_node H old_message sender) (leaf_node H new_message sender)
          index with
      | none =>
        rw [update_message_replace_none H eng state_root sender recipient
          index root old_message new_message hne hv hw hr] at hl ⊢
        simp at hl
        simp [hl]
      | some r =>
        rw [update_message_replace_some H eng state_root sender recipient
          index root r old_message new_message hne hv hw hr] at hl ⊢
        simp at hl
        simp [hl]

/-- C1 witness: concrete instantiation on the all-success engine. -/
theorem update_verify_before_emit_before_replace_witness :
    (([1] : Bytes) ≠ [2]
     ∧ Action.emitEvent (new_message_log (leaf_node idHash [2] [9]) [9] [4] [2])
        ∈ (update_message idHash okEngine [0] [9] [4] 0 [3] [1] [2]).trace)
    ∧ (okEngine.verify_leaf [0] [3] (leaf_node idHash [1] [9]) 0 = true
       ∧ (update_message idHash okEngine [0] [9] [4] 0 [3] [1] [2]).trace =
         [Action.verifyCall [3] (leaf_node idHash [1] [9]) 0,
          Action.emitEvent (new_message_log (leaf_node idHash [2] [9]) [9] [4] [2]),
          Action.replaceCall [3] (leaf_node idHash [1] [9])
            (leaf_node idHash [2] [9]) 0]) :=
  ⟨⟨by decide, by decide⟩,
    update_verify_before_emit_before_replace idHash okEngine [0] [9] [4] 0 [3]
      [1] [2] (new_message_log (leaf_node idHash [2] [9]) [9] [4] [2])
      (by decide) (by decide)⟩

/-- C2: when the old content equals the new content, `update_message`
returns success without any external call (no verify, no replace), without
mutating the tree root, and without emitting any log event. -/
theorem update_noop_frame (H : Bytes → Hash32) (eng : Engine)
    (state_root : Hash32) (sender recipient : Pubkey) (index : Nat)
    (root : Hash32) (old_message new_message : Bytes)
    (h : old_message = new_message) :
    (update_message H eng state_root sender recipient index root
        old_message new_message).result = Except.ok ()
    ∧ (update_message H eng state_root sender recipient index root
        old_message new_message).trace = []
    ∧ (update_message H eng state_root sender recipient index root
        old_message new_message).root = state_root
    ∧ verify_calls (update_message H eng state_root sender recipient index
        root old_message new_message).trace = []
    ∧ replace_calls (update_message H eng state_root sender recipient index
        root old_message new_message).trace = []
    ∧ emitted_logs (update_message H eng state_root sender recipient index
        root old_message new_message).trace = [] := by
  rw [update_message_noop H eng state_root sender recipient index root
    old_message new_message h]
  simp [verify_calls, replace_calls, emitted_logs]

/-- C2 witness: concrete instantiation with equal contents. -/
theorem update_noop_frame_witness :
    ([5] : Bytes) = [5]
    ∧ ((update_message idHash okEngine [0] [1] [2] 0 [3] [5] [5]).result
          = Except.ok ()
       ∧ (update_message idHash okEngine [0] [1] [2] 0 [3] [5] [5]).trace = []
       ∧ (update_message idHash okEngine [0] [1] [2] 0 [3] [5] [5]).root = [0]
       ∧ verify_calls
          (update_message idHash okEngine [0] [1] [2] 0 [3] [5] [5]).trace = []
       ∧ replace_calls
          (update_message idHash okEngine [0] [1] [2] 0 [3] [5] [5]).trace = []
       ∧ emitted_logs
          (update_message idHash okEngine [0] [1] [2] 0 [3] [5] [5]).trace
          = []) :=
  ⟨rfl, update_noop_frame idHash okEngine [0] [1] [2] 0 [3] [5] [5] rfl⟩

/-- C4: when the verify step fails (and the contents differ, so the no-op
path is not taken), `update_message` returns the verification error, emits
no log event, issues no replace call, and leaves the tree root unchanged. -/
theorem update_verify_failure_no_mutation (H : Bytes → Hash32) (eng : Engine)
    (state_root : Hash32) (sender recipient : Pubkey) (index : Nat)
    (root : Hash32) (old_message new_message : Bytes)
    (hne : old_message ≠ new_message)
    (hv : eng.verify_leaf state_root root (leaf_node H old_message sender)
        index = false) :
    (update_message H eng state_root sender recipient index root
        old_message new_message).result =
      Except.error ProgramError.leafVerificationFailed
    ∧ emitted_logs (update_message H eng state_root sender recipient index
        root old_message new_message).trace = []
    ∧ replace_calls (update_message H eng state_root sender recipient index
        root old_message new_message).trace = []
    ∧ (update_message H eng state_root sender recipient index root
        old_message new_message).root = state_root := by
  rw [update_message_verify_false H eng state_root sender recipient index
    root old_message new_message hne hv]
  simp [emitted_logs, replace_calls]

/-- C4 witness: concrete instantiation on the verify-failing engine. -/
theorem update_verify_failure_no_mutation_witness :
    (([1] : Bytes) ≠ [2]
     ∧ verifyFailEngine.verify_leaf [0] [3] (leaf_node idHash [1] [9]) 0
        = false)
    ∧ ((update_message idHash verifyFailEngine [0] [9] [2] 0 [3] [1] [2]).result
          = Except.error ProgramError.leafVerificationFailed
       ∧ emitted_logs
          (update_message idHash verifyFailEngine [0] [9] [2] 0 [3] [1] [2]).trace
          = []
       ∧ replace_calls
          (update_message idHash verifyFailEngine [0] [9] [2] 0 [3] [1] [2]).trace
          = []
       ∧ (update_message idHash verifyFailEngine [0] [9] [2] 0 [3] [1] [2]).root
          = [0]) :=
  ⟨⟨by decide, rfl⟩,
    update_verify_failure_no_mutation idHash verifyFailEngine [0] [9] [2] 0 [3]
      [1] [2] (by decide) rfl⟩

/-- C5: when the replace call fails after the verify step succeeded (and the
log emission went through), `update_message` returns the replace error, the
tree root is unchanged, and yet the log event for the new content has
already been emitted: the log contains an event for content never committed
to the tree. -/
theorem update_replace_failure_event_already_emitted (H : Bytes → Hash32)
    (eng : Engine) (state_root : Hash32) (sender recipient : Pubkey)
    (index : Nat) (root : Hash32) (old_message new_message : Bytes)
    (hne : old_message ≠ new_message)
    (hv : eng.verify_leaf state_root root (leaf_node H old_message sender)
        index = true)
    (hw : eng.wrap_application_data_v1
        (new_message_log (leaf_node H new_message sender) sender recipient
          new_message) = true)
    (hr : eng.replace_leaf state_root root (leaf_node H old_message sender)
        (leaf_node H new_message sender) index = none) :
    (update_message H eng state_root sender recipient index root
        old_message new_message).result =
      Except.error ProgramError.replaceFailed
    ∧ Action.emitEvent (new_message_log (leaf_node H new_message sender)
        sender recipient new_message) ∈
      (update_message H eng state_root sender recipient index root
        old_message new_message).trace
    ∧ emitted_logs (update_message H eng state_root sender recipient index
        root old_message new_message).trace =
      [new_message_log (leaf_node H new_message sender) sender recipient
        new_message]
    ∧ (update_message H eng state_root sender recipient index root
        old_message new_message).root = state_root := by
  rw [update_message_replace_none H eng state_root sender recipient index
    root old_message new_message hne hv hw hr]
  simp [emitted_logs]

/-- C5 witness: concrete instantiation on the replace-failing engine. -/
theorem update_replace_failure_event_already_emitted_witness :
    (([1] : Bytes) ≠ [2]
     ∧ replaceFailEngine.verify_leaf [0] [3] (leaf_node idHash [1] [9]) 0
        = true
     ∧ replaceFailEngine.replace_leaf [0] [3] (leaf_node idHash [1] [9])
        (leaf_node idHash [2] [9]) 0 = none)
    ∧ ((update_message idHash replaceFailEngine [0] [9] [4] 0 [3] [1] [2]).result
          = Except.error ProgramError.replaceFailed
       ∧ Action.emitEvent (new_message_log (leaf_node idHash [2] [9]) [9] [4] [2])
          ∈ (update_message idHash replaceFailEngine [0] [9] [4] 0 [3] [1] [2]).trace
       ∧ emitted_logs
          (update_message idHash replaceFailEngine [0] [9] [4] 0 [3] [1] [2]).trace
          = [new_message_log (leaf_node idHash [2] [9]) [9] [4] [2]]
       ∧ (update_message idHash replaceFailEngine [0] [9] [4] 0 [3] [1] [2]).root
          = [0]) :=
  ⟨⟨by decide, rfl, rfl⟩,
    update_replace_failure_event_already_emitted idHash replaceFailEngine [0]
      [9] [4] 0 [3] [1] [2] (by decide) rfl rfl rfl⟩

/-- C10: on the no-op path (old content syntactically equal to new content),
`update_message` returns success for every index and every claimed root —
including values corresponding to no leaf and no recent root — with no
external call and no change to the tree state: index and root are never
validated there. -/
theorem update_noop_ignores_index_and_root (H : Bytes → Hash32)
    (eng : Engine) (state_root : Hash32) (sender recipient : Pubkey)
    (index : Nat) (root : Hash32) (m : Bytes) :
    update_message H eng state_root sender recipient index root m m =
      { result := Except.ok (), trace := [], root := state_root } :=
  update_message_noop H eng state_root sender recipient index root m m rfl

/-- C3: the leaf value is the hash of the content bytes concatenated with
the sender identity bytes with no separator; this encoding is deterministic
(equal (content, sender) pairs give equal leaves); and `append_message` and
`update_message` compute their leaves with this same `leaf_node` function:
the record emitted by an append carries `leaf_node H m sender`, the verify
call of an update carries `leaf_node H old_message sender`, and any record
emitted by an update carries `leaf_node H new_message sender`. -/
theorem leaf_encoding_canonical (H : Bytes → Hash32) (eng : Engine)
    (state_root root : Hash32) (sender recipient : Pubkey) (index : Nat)
    (m c1 c2 old_message new_message : Bytes) (s1 s2 : Pubkey)
    (la lu : MessageLog)
    (hc : c1 = c2) (hs : s1 = s2)
    (hne : old_message ≠ new_message)
    (hla : la ∈ emitted_logs
      (append_message H eng state_root sender recipient m).trace)
    (hlu : lu ∈ emitted_logs
      (update_message H eng state_root sender recipient index root
        old_message new_message).trace) :
    leaf_node H m sender = H (m ++ sender)
    ∧ leaf_node H c1 s1 = leaf_node H c2 s2
    ∧ la.leaf_node = leaf_node H m sender
    ∧ (update_message H eng state_root sender recipient index root
        old_message new_message).trace.head? =
      some (Action.verifyCall root (leaf_node H old_message sender) index)
    ∧ lu.leaf_node = leaf_node H new_message sender := by
  subst hc hs
  refine ⟨by simp [leaf_node, keccak_hashv], rfl, ?_, ?_, ?_⟩
  · cases hw : eng.wrap_application_data_v1
        (new_message_log (leaf_node H m sender) sender recipient m) with
    | false =>
      rw [append_message_wrap_false H eng state_root sender recipient m hw]
        at hla
      simp [emitted_logs] at hla
    | true =>
      cases ha : eng.append state_root (leaf_node H m sender) with
      | none =>
        rw [append_message_append_none H eng state_root sender recipient m hw
          ha] at hla
        simp [emitted_logs] at hla
        simp [hla, new_message_log]
      | some r =>
        rw [append_message_append_some H eng state_root sender recipient m r
          hw ha] at hla
        simp [emitted_logs] at hla
        simp [hla, new_message_log]
  · cases hv : eng.verify_leaf state_root root (leaf_node H old_message sender)
        index with
    | false =>
      rw [update_message_verify_false H eng state_root sender recipient index
        root old_message new_message hne hv]
      rfl
    | true =>
      cases hw : eng.wrap_application_data_v1
          (new_message_log (leaf_node H new_message sender) sender recipient
            new_message) with
      | false =>
        rw [update_message_wrap_false H eng state_root sender recipient index
          root old_message new_message hne hv hw]
        rfl
      | true =>
        cases hr : eng.replace_leaf state_root root
            (leaf_node H old_message sender) (leaf_node H new_message sender)
            index with
        | none =>
          rw [update_message_replace_none H eng state_root sender recipient
            index root old_message new_message hne hv hw hr]
          rfl
        | some r =>
          rw [update_message_replace_some H eng state_root sender recipient
            index root r old_message new_message hne hv hw hr]
          rfl
  · cases hv : eng.verify_leaf state_root root (leaf_node H old_message sender)
        index with
    | false =>
      rw [update_message_verify_false H eng state_root sender recipient index
        root old_message new_message hne hv] at hlu
      simp [emitted_logs] at hlu
    | true =>
      cases hw : eng.wrap_application_data_v1
          (new_message_log (leaf_node H new_message sender) sender recipient
            new_message) with
      | false =>
        rw [update_message_wrap_false H eng state_root sender recipient index
          root old_message new_message hne hv hw] at hlu
        simp [emitted_logs] at hlu
      | true =>
        cases hr : eng.replace_leaf state_root root
            (leaf_node H old_message sender) (leaf_node H new_message sender)
            index with
        | none =>
          rw [update_message_replace_none H eng state_root sender recipient
            index root old_message new_message hne hv hw hr] at hlu
          simp [emitted_logs] at hlu
          simp [hlu, new_message_log]
        | some r =>
          rw [update_message_replace_some H eng state_root sender recipient
            index root r old_message new_message hne hv hw hr] at hlu
          simp [emitted_logs] at hlu
          simp [hlu, new_message_log]

/-- C3 witness: concrete instantiation on the all-success engine. -/
theorem leaf_encoding_canonical_witness :
    (([1] : Bytes) ≠ [2]
     ∧ new_message_log (leaf_node idHash [7] [9]) [9] [4] [7]
        ∈ emitted_logs (append_message idHash okEngine [0] [9] [4] [7]).trace
     ∧ new_message_log (leaf_node idHash [2] [9]) [9] [4] [2]
        ∈ emitted_logs
          (update_message idHash okEngine [0] [9] [4] 0 [3] [1] [2]).trace)
    ∧ (leaf_node idHash [7] [9] = idHash ([7] ++ [9])
       ∧ leaf_node idHash [1] [9] = leaf_node idHash [1] [9]
       ∧ (new_message_log (leaf_node idHash [7] [9]) [9] [4] [7]).leaf_node
          = leaf_node idHash [7] [9]
       ∧ (update_message idHash okEngine [0] [9] [4] 0 [3] [1] [2]).trace.head?
          = some (Action.verifyCall [3] (leaf_node idHash [1] [9]) 0)
       ∧ (new_message_log (leaf_node idHash [2] [9]) [9] [4] [2]).leaf_node
          = leaf_node idHash [2] [9]) :=
  ⟨⟨by decide, by decide, by decide⟩,
    leaf_encoding_canonical idHash okEngine [0] [3] [9] [4] 0 [7] [1] [1]
      [1] [2] [9] [9]
      (new_message_log (leaf_node idHash [7] [9]) [9] [4] [7])
      (new_message_log (leaf_node idHash [2] [9]) [9] [4] [2])
      rfl rfl (by decide) (by decide) (by decide)⟩

/-- C6 counterexample: a concrete append on which the engine append call
fails: the operation aborts with the append error, yet a log event HAS been
left emitted — refuting the claim that an append failure leaves no emitted
event. -/
theorem append_failure_event_emitted_cex :
    (append_message idHash appendFailEngine [0] [1] [2] [7]).result =
      Except.error ProgramError.appendFailed
    ∧ emitted_logs (append_message idHash appendFailEngine [0] [1] [2] [7]).trace
      ≠ [] :=
  ⟨rfl, by decide⟩

/-- C6 (amended): if the engine append call fails, `append_message` aborts
with the append error and the tree root is unchanged, but the log event has
already been emitted before the append call — the Append path has the same
emit-before-commit edge case as the Update replace step. -/
theorem append_failure_aborts_but_event_already_emitted (H : Bytes → Hash32)
    (eng : Engine) (state_root : Hash32) (sender recipient : Pubkey)
    (message : Bytes)
    (hw : eng.wrap_application_data_v1
        (new_message_log (leaf_node H message sender) sender recipient
          message) = true)
    (ha : eng.append state_root (leaf_node H message sender) = none) :
    (append_message H eng state_root sender recipient message).result =
      Except.error ProgramError.appendFailed
    ∧ (append_message H eng state_root sender recipient message).root
      = state_root
    ∧ emitted_logs (append_message H eng state_root sender recipient
        message).trace =
      [new_message_log (leaf_node H message sender) sender recipient message]
    ∧ (append_message H eng state_root sender recipient message).trace =
      [Action.emitEvent (new_message_log (leaf_node H message sender) sender
         recipient message),
       Action.appendCall (leaf_node H message sender)] := by
  rw [append_message_append_none H eng state_root sender recipient message hw
    ha]
  simp [emitted_logs]

/-- C6 (amended) witness: concrete instantiation on the append-failing
engine. -/
theorem append_failure_aborts_but_event_already_emitted_witness :
    (appendFailEngine.wrap_application_data_v1
        (new_message_log (leaf_node idHash [7] [1]) [1] [2] [7]) = true
     ∧ appendFailEngine.append [0] (leaf_node idHash [7] [1]) = none)
    ∧ ((append_message idHash appendFailEngine [0] [1] [2] [7]).result =
        Except.error ProgramError.appendFailed
       ∧ (append_message idHash appendFailEngine [0] [1] [2] [7]).root = [0]
       ∧ emitted_logs
          (append_message idHash appendFailEngine [0] [1] [2] [7]).trace =
         [new_message_log (leaf_node idHash [7] [1]) [1] [2] [7]]
       ∧ (append_message idHash appendFailEngine [0] [1] [2] [7]).trace =
         [Action.emitEvent (new_message_log (leaf_node idHash [7] [1]) [1] [2]
            [7]),
          Action.appendCall (leaf_node idHash [7] [1])]) :=
  ⟨⟨rfl, rfl⟩,
    append_failure_aborts_but_event_already_emitted idHash appendFailEngine
      [0] [1] [2] [7] rfl rfl⟩

/-- C7: every log record produced on an append or on a successful update
carries the four NoteEvent attributes: the leaf hash (32 bytes whenever the
hash has 32-byte output), the owner/sender identity, the recipient
identity, and the note text. -/
theorem note_event_fields (H : Bytes → Hash32) (eng : Engine)
    (state_root root : Hash32) (sender recipient : Pubkey) (index : Nat)
    (m old_message new_message : Bytes) (la lu : MessageLog)
    (h32 : ∀ b, (H b).length = 32)
    (hla : la ∈ emitted_logs
      (append_message H eng state_root sender recipient m).trace)
    (hok : (update_message H eng state_root sender recipient index root
        old_message new_message).result = Except.ok ())
    (hne : old_message ≠ new_message)
    (hlu : lu ∈ emitted_logs
      (update_message H eng state_root sender recipient index root
        old_message new_message).trace) :
    (la.leaf_node = leaf_node H m sender ∧ la.leaf_node.length = 32
     ∧ la.owner = sender ∧ la.recipient = recipient ∧ la.note = m)
    ∧ (lu.leaf_node = leaf_node H new_message sender
       ∧ lu.leaf_node.length = 32
       ∧ lu.owner = sender ∧ lu.recipient = recipient
       ∧ lu.note = new_message) := by
  constructor
  · cases hw : eng.wrap_application_data_v1
        (new_message_log (leaf_node H m sender) sender recipient m) with
    | false =>
      rw [append_message_wrap_false H eng state_root sender recipient m hw]
        at hla
      simp [emitted_logs] at hla
    | true =>
      cases ha : eng.append state_root (leaf_node H m sender) with
      | none =>
        rw [append_message_append_none H eng state_root sender recipient m hw
          ha] at hla
        simp [emitted_logs] at hla
        simp [hla, new_message_log, leaf_node, keccak_hashv, h32]
      | some r =>
        rw [append_message_append_some H eng state_root sender recipient m r
          hw ha] at hla
        simp [emitted_logs] at hla
        simp [hla, new_message_log, leaf_node, keccak_hashv, h32]
  · cases hv : eng.verify_leaf state_root root (leaf_node H old_message sender)
        index with
    | false =>
      rw [update_message_verify_false H eng state_root sender recipient index
        root old_message new_message hne hv] at hlu
      simp [emitted_logs] at hlu
    | true =>
      cases hw : eng.wrap_application_data_v1
          (new_message_log (leaf_node H new_message sender) sender recipient
            new_message) with
      | false =>
        rw [update_message_wrap_false H eng state_root sender recipient index
          root old_message new_message hne hv hw] at hlu
        simp [emitted_logs] at hlu
      | true =>
        cases hr : eng.replace_leaf state_root root
            (leaf_node H old_message sender) (leaf_node H new_message sender)
            index with
        | none =>
          rw [update_message_replace_none H eng state_root sender recipient
            index root old_message new_message hne hv hw hr] at hok
          simp at hok
        | some r =>
          rw [update_message_replace_some H eng state_root sender recipient
            index root r old_message new_message hne hv hw hr] at hlu
          simp [emitted_logs] at hlu
          simp [hlu, new_message_log, leaf_node, keccak_hashv, h32]

/-- C7 witness: concrete instantiation on the all-success engine with a
32-byte-output hash. -/
theorem note_event_fields_witness :
    (([1] : Bytes) ≠ [2]
     ∧ (update_message zeroHash32 okEngine [0] [9] [4] 0 [3] [1] [2]).result
        = Except.ok ()
     ∧ new_message_log (leaf_node zeroHash32 [7] [9]) [9] [4] [7]
        ∈ emitted_logs
          (append_message zeroHash32 okEngine [0] [9] [4] [7]).trace
     ∧ new_message_log (leaf_node zeroHash32 [2] [9]) [9] [4] [2]
        ∈ emitted_logs
          (update_message zeroHash32 okEngine [0] [9] [4] 0 [3] [1] [2]).trace)
    ∧ (((new_message_log (leaf_node zeroHash32 [7] [9]) [9] [4] [7]).leaf_node
          = leaf_node zeroHash32 [7] [9]
        ∧ (new_message_log (leaf_node zeroHash32 [7] [9]) [9] [4]
            [7]).leaf_node.length = 32
        ∧ (new_message_log (leaf_node zeroHash32 [7] [9]) [9] [4] [7]).owner
          = [9]
        ∧ (new_message_log (leaf_node zeroHash32 [7] [9]) [9] [4]
            [7]).recipient = [4]
        ∧ (new_message_log (leaf_node zeroHash32 [7] [9]) [9] [4] [7]).note
          = [7])
       ∧ ((new_message_log (leaf_node zeroHash32 [2] [9]) [9] [4] [2]).leaf_node
            = leaf_node zeroHash32 [2] [9]
          ∧ (new_message_log (leaf_node zeroHash32 [2] [9]) [9] [4]
              [2]).leaf_node.length = 32
          ∧ (new_message_log (leaf_node zeroHash32 [2] [9]) [9] [4] [2]).owner
            = [9]
          ∧ (new_message_log (leaf_node zeroHash32 [2] [9]) [9] [4]
              [2]).recipient = [4]
          ∧ (new_message_log (leaf_node zeroHash32 [2] [9]) [9] [4] [2]).note
            = [2])) :=
  ⟨⟨by decide, rfl, by decide, by decide⟩,
    note_event_fields zeroHash32 okEngine [0] [3] [9] [4] 0 [7] [1] [2]
      (new_message_log (leaf_node zeroHash32 [7] [9]) [9] [4] [7])
      (new_message_log (leaf_node zeroHash32 [2] [9]) [9] [4] [2])
      (fun _ => rfl) (by decide) rfl (by decide) (by decide)⟩

/-- C8: the PDA signer seeds that authorize every tree mutation are the
same function of the tree address and its bump in `create_messages_tree`,
`append_message` and `update_message`; they are exactly the declared
`tree_authority` PDA seeds extended by the bump; and for any injective
platform derivation of the authority from the seeds, distinct tree
addresses yield distinct authorities. -/
theorem tree_authority_binding {A : Type} (derive : List Bytes → A)
    (tree t1 t2 : Pubkey) (bump b1 b2 : Nat)
    (hinj : Function.Injective derive) (hne : t1 ≠ t2) :
    signers_seeds_create tree bump = signers_seeds_append tree bump
    ∧ signers_seeds_append tree bump = signers_seeds_update tree bump
    ∧ signers_seeds_create tree bump = [tree_authority_seeds tree ++ [[bump]]]
    ∧ (∀ x1 ∈ signers_seeds_create t1 b1, ∀ x2 ∈ signers_seeds_create t2 b2,
        derive x1 ≠ derive x2) := by
  refine ⟨rfl, rfl, rfl, ?_⟩
  intro x1 hx1 x2 hx2
  simp [signers_seeds_create] at hx1 hx2
  subst hx1
  subst hx2
  intro h
  have h2 := hinj h
  simp at h2
  exact hne h2.1

/-- C8 witness: concrete instantiation with the identity derivation. -/
theorem tree_authority_binding_witness :
    (Function.Injective (id : List Bytes → List Bytes)
     ∧ ([0] : Pubkey) ≠ [1])
    ∧ (signers_seeds_create [2, 3] 255 = signers_seeds_append [2, 3] 255
       ∧ signers_seeds_append [2, 3] 255 = signers_seeds_update [2, 3] 255
       ∧ signers_seeds_create [2, 3] 255
          = [tree_authority_seeds [2, 3] ++ [[255]]]
       ∧ (∀ x1 ∈ signers_seeds_create [0] 254,
           ∀ x2 ∈ signers_seeds_create [1] 253,
             id x1 ≠ id x2)) :=
  ⟨⟨Function.injective_id, by decide⟩,
    tree_authority_binding id [2, 3] [0] [1] 255 254 253 Function.injective_id
      (by decide)⟩

/-- C9: the pre-hash byte string fed to the hash — content concatenated
with the sender identity — is injective when sender identities have the
fixed 32-byte length: equal concatenations force equal contents and equal
senders. -/
theorem hashv_input_injective (c1 c2 : Bytes) (s1 s2 : Pubkey)
    (h1 : s1.length = 32) (h2 : s2.length = 32)
    (h : hashv_input [c1, s1] = hashv_input [c2, s2]) :
    c1 = c2 ∧ s1 = s2 := by
  simp [hashv_input] at h
  exact List.append_inj' h (h1.trans h2.symm)

/-- C9 witness: concrete instantiation with 32-byte sender identities. -/
theorem hashv_input_injective_witness :
    ((List.replicate 32 7 : Pubkey).length = 32
     ∧ hashv_input [[1], List.replicate 32 7]
        = hashv_input [[1], List.replicate 32 7])
    ∧ (([1] : Bytes) = [1]
       ∧ (List.replicate 32 7 : Pubkey) = List.replicate 32 7) :=
  ⟨⟨by decide, rfl⟩,
    hashv_input_injective [1] [1] (List.replicate 32 7) (List.replicate 32 7)
      (by decide) (by decide) rfl⟩

end CompressedNotes
